import Mathlib

/-!
Shallow embedding of the ullm provider-dispatch core (src/ullm) and proofs
about it.  Python dictionaries are modelled as insertion-ordered association
lists, JSON-like Python values as the inductive type J, raised exceptions as
Except results, and wall-clock reads (time.time()) as an explicit parameter.
-/

namespace Ullm

/-- JSON-like Python value: the payload/response vocabulary the adapters
manipulate (None, bool, int, str, list, dict). -/
inductive J where
  | null
  | bool (b : Bool)
  | num (n : Int)
  | str (s : String)
  | arr (xs : List J)
  | obj (fields : List (String × J))

/-- Python equality of a value against a string literal, the only equality
the adapters use on wire values (False for every non-string value). -/
def jEqStr (v : J) (s : String) : Bool :=
  match v with
  | .str t => t == s
  | _ => false

/-- Python d.get(k) == s where a missing key (None) never equals a string. -/
def optJEqStr (x : Option J) (s : String) : Bool :=
  match x with
  | some v => jEqStr v s
  | none => false

/-- Python d.get(k): first binding wins; None when the key is absent. -/
def pyDictGet {α : Type} (d : List (String × α)) (k : String) : Option α :=
  (d.find? (fun e => e.1 == k)).map (fun e => e.2)

/-- Python d[k] = v: replace the binding in place when the key exists,
otherwise append it (insertion order preserved). -/
def pyDictSet {α : Type} (d : List (String × α)) (k : String) (v : α) :
    List (String × α) :=
  if d.any (fun e => e.1 == k) then
    d.map (fun e => if e.1 == k then (k, v) else e)
  else d ++ [(k, v)]

/-- Python d.update(kvs): assign each binding of kvs into d in order. -/
def pyDictUpdate {α : Type} (d : List (String × α)) (kvs : List (String × α)) :
    List (String × α) :=
  kvs.foldl (fun acc kv => pyDictSet acc kv.1 kv.2) d

/-- Number of bindings of a key in a dict model (a real dict has at most 1). -/
def keyCount {α : Type} (d : List (String × α)) (k : String) : Nat :=
  (d.filter (fun e => e.1 == k)).length

/-- Python truthiness of a J value (None, False, 0, empty str/list/dict are
falsy). -/
def pyTruthy : J → Bool
  | .null => false
  | .bool b => b
  | .num n => n != 0
  | .str s => s != ""
  | .arr xs => !xs.isEmpty
  | .obj fs => !fs.isEmpty

/-- Canonical error kinds, one per exception class of ullm/exceptions.py. -/
inductive ErrorKind where
  | authentication
  | badRequest
  | rateLimit
  | timeout
  | api
  | providerNotFound
  | unsupportedProvider
deriving Repr, DecidableEq, BEq

/-- An ullm exception value: kind tag plus the fields UllmException carries. -/
structure UllmError where
  kind : ErrorKind
  message : String
  status_code : Option Int
  model : Option String
  llm_provider : Option String
deriving Repr, DecidableEq

/-- exceptions.AuthenticationError (status 401). -/
def AuthenticationError (msg : String) (model provider : Option String) : UllmError :=
  ⟨.authentication, msg, some 401, model, provider⟩

/-- exceptions.BadRequestError (status 400). -/
def BadRequestError (msg : String) (model provider : Option String) : UllmError :=
  ⟨.badRequest, msg, some 400, model, provider⟩

/-- exceptions.RateLimitError (status 429). -/
def RateLimitError (msg : String) (model provider : Option String) : UllmError :=
  ⟨.rateLimit, msg, some 429, model, provider⟩

/-- exceptions.Timeout (status 504). -/
def Timeout (msg : String) (model provider : Option String) : UllmError :=
  ⟨.timeout, msg, some 504, model, provider⟩

/-- exceptions.APIError (default status 500). -/
def APIError (msg : String) (status : Int) (model provider : Option String) : UllmError :=
  ⟨.api, msg, some status, model, provider⟩

/-- exceptions.UnsupportedProviderError.  Python formats the message as
f-string Provider ... is not supported with the name in single quotes; the
quotes are elided here. -/
def UnsupportedProviderError (provider model : String) : UllmError :=
  ⟨.unsupportedProvider, "Provider " ++ provider ++ " is not supported",
    none, some model, some provider⟩

/-! ## Provider resolver (ullm/providers.py) -/

/-- providers.SUPPORTED_PROVIDERS. -/
def SUPPORTED_PROVIDERS : List String := ["openai", "anthropic", "groq", "bedrock"]

/-- providers.PROVIDER_PREFIXES, in source (insertion) order. -/
def PROVIDER_PREFIXES : List (List Char × String) :=
  [("gpt".data, "openai"),
   ("o1".data, "openai"),
   ("o3".data, "openai"),
   ("text-embedding".data, "openai"),
   ("claude".data, "anthropic"),
   ("llama".data, "groq"),
   ("mixtral".data, "groq"),
   ("gemma".data, "groq")]

/-- Python s.split(sep, 1) restricted to the case where sep occurs: returns
the part before the first occurrence and the part after it; none when sep
does not occur (which is exactly the sep-not-in-s branch of the source). -/
def splitFirst (sep : Char) : List Char → Option (List Char × List Char)
  | [] => none
  | c :: cs =>
    if c = sep then some ([], cs)
    else
      match splitFirst sep cs with
      | none => none
      | some (l, r) => some (c :: l, r)

/-- Python str.lower, character-wise (the provider names involved are ASCII). -/
def lowerStr (s : List Char) : List Char := s.map Char.toLower

/-- providers.parse_model_name.  The Python code first tests whether a slash
occurs and then splits once; splitFirst returning some is exactly that test. -/
def parse_model_name (model : String) : Except UllmError (String × String) :=
  match splitFirst '/' model.data with
  | some (left, right) =>
    let provider := String.mk (lowerStr left)
    if SUPPORTED_PROVIDERS.contains provider then
      .ok (provider, String.mk right)
    else
      .error (UnsupportedProviderError provider model)
  | none =>
    match PROVIDER_PREFIXES.find? (fun pe => pe.1.isPrefixOf (lowerStr model.data)) with
    | some pe => .ok (pe.2, model)
    | none => .ok ("openai", model)

/-! ## Client registry (ullm/registry.py, ullm/clients/__init__.py) -/

/-- The four client classes of ullm/clients. -/
inductive ClientClass where
  | openaiClient
  | anthropicClient
  | groqClient
  | bedrockClient
deriving Repr, DecidableEq

/-- The register_client decorator applications that execute when the package
is imported (ullm/clients/__init__.py imports anthropic, bedrock, groq,
openai in that order).  Only AnthropicClient and BedrockClient carry the
decorator in the source; openai.py and groq.py define their classes without
it, so no registration runs for them. -/
def clientRegistrations : List (String × ClientClass) :=
  [("anthropic", .anthropicClient), ("bedrock", .bedrockClient)]

/-- registry._CLIENT_REGISTRY after process initialization: each decorator
performs a dict assignment into the initially empty registry. -/
def registryAfterInit : List (String × ClientClass) :=
  clientRegistrations.foldl (fun r pc => pyDictSet r pc.1 pc.2) []

/-- registry.get_client: dict lookup, UnsupportedProviderError when absent
(the model reported in the error is kwargs.get with default unknown). -/
def get_client (provider : String) (model : String) : Except UllmError ClientClass :=
  match pyDictGet registryAfterInit provider with
  | some c => .ok c
  | none => .error (UnsupportedProviderError provider model)

/-! ## Resolver lemmas -/

lemma splitFirst_of_not_mem {sep : Char} :
    ∀ {s : List Char}, sep ∉ s → splitFirst sep s = none := by
  intro s
  induction s with
  | nil => intro _; rfl
  | cons c cs ih =>
    intro h
    have hc : ¬ c = sep := fun hcs => h (hcs ▸ List.mem_cons_self c cs)
    have hcs : sep ∉ cs := fun hm => h (List.mem_cons_of_mem c hm)
    simp [splitFirst, hc, ih hcs]

lemma splitFirst_append {sep : Char} {l r : List Char} (h : sep ∉ l) :
    splitFirst sep (l ++ sep :: r) = some (l, r) := by
  induction l with
  | nil => simp [splitFirst]
  | cons c cs ih =>
    have hc : ¬ c = sep := fun hcs => h (hcs ▸ List.mem_cons_self c cs)
    have hcs : sep ∉ cs := fun hm => h (List.mem_cons_of_mem c hm)
    simp [splitFirst, hc, ih hcs]

/-- C3: for every model string containing a slash, parse_model_name splits on
the first slash, lower-cases the left segment as the provider and returns the
right segment unchanged, raising UnsupportedProviderError exactly when the
lower-cased left segment is not a supported provider; in particular the
string unsupported/model-x raises UnsupportedProviderError. -/
theorem parse_model_name_slash (l r : List Char) (h : '/' ∉ l) :
    parse_model_name (String.mk (l ++ '/' :: r)) =
      (if SUPPORTED_PROVIDERS.contains (String.mk (lowerStr l)) then
        Except.ok (String.mk (lowerStr l), String.mk r)
      else
        Except.error (UnsupportedProviderError (String.mk (lowerStr l))
          (String.mk (l ++ '/' :: r)))) ∧
    parse_model_name "unsupported/model-x" =
      Except.error (UnsupportedProviderError "unsupported" "unsupported/model-x") := by
  constructor
  · unfold parse_model_name
    rw [show (String.mk (l ++ '/' :: r)).data = l ++ '/' :: r from rfl,
      splitFirst_append h]
  · rfl

/-- Witness for parse_model_name_slash at the concrete input OpenAI/gpt-4. -/
theorem parse_model_name_slash_witness :
    (parse_model_name (String.mk ("OpenAI".data ++ '/' :: "gpt-4".data)) =
      (if SUPPORTED_PROVIDERS.contains (String.mk (lowerStr "OpenAI".data)) then
        Except.ok (String.mk (lowerStr "OpenAI".data), String.mk "gpt-4".data)
      else
        Except.error (UnsupportedProviderError (String.mk (lowerStr "OpenAI".data))
          (String.mk ("OpenAI".data ++ '/' :: "gpt-4".data))))) ∧
    parse_model_name "unsupported/model-x" =
      Except.error (UnsupportedProviderError "unsupported" "unsupported/model-x") :=
  parse_model_name_slash "OpenAI".data "gpt-4".data (by decide)

/-- C4: for every model string without a slash, parse_model_name never raises
and returns the original string unchanged, paired with the provider of the
first matching entry of the ordered prefix table, defaulting to openai when
no prefix matches. -/
theorem parse_model_name_auto_detect (model : String) (h : '/' ∉ model.data) :
    parse_model_name model =
      (match PROVIDER_PREFIXES.find? (fun pe => pe.1.isPrefixOf (lowerStr model.data)) with
       | some pe => Except.ok (pe.2, model)
       | none => Except.ok ("openai", model)) := by
  unfold parse_model_name
  rw [splitFirst_of_not_mem h]

/-- Witness for parse_model_name_auto_detect at claude-3-opus. -/
theorem parse_model_name_auto_detect_witness :
    parse_model_name "claude-3-opus" =
      (match PROVIDER_PREFIXES.find?
          (fun pe => pe.1.isPrefixOf (lowerStr ("claude-3-opus" : String).data)) with
       | some pe => Except.ok (pe.2, ("claude-3-opus" : String))
       | none => Except.ok ("openai", ("claude-3-opus" : String))) :=
  parse_model_name_auto_detect "claude-3-opus" (by decide)

/-- C1 is violated by the code: after initialization only anthropic and
bedrock have registered factories; get_client on openai or groq raises
UnsupportedProviderError even though the supported-provider set (and the
test suite, which expects an AuthenticationError from openai/gpt-4 with a
bad key) requires an adapter instance. -/
theorem registry_missing_openai_groq :
    get_client "anthropic" "unknown" = Except.ok ClientClass.anthropicClient ∧
    get_client "bedrock" "unknown" = Except.ok ClientClass.bedrockClient ∧
    get_client "openai" "unknown" =
      Except.error (UnsupportedProviderError "openai" "unknown") ∧
    get_client "groq" "unknown" =
      Except.error (UnsupportedProviderError "groq" "unknown") ∧
    pyDictGet registryAfterInit "openai" = none ∧
    pyDictGet registryAfterInit "groq" = none := by
  refine ⟨rfl, rfl, rfl, rfl, rfl, rfl⟩

/-! ## Retry policy and dispatch entry points (ullm/main.py) -/

/-- tenacity retry_if_exception_type((RateLimitError, Timeout)): the
exception types the decorator from _create_retry_decorator retries on. -/
def retry_predicate (e : UllmError) : Bool :=
  e.kind == .rateLimit || e.kind == .timeout

/-- tenacity wait_exponential: the delay after a failed attempt, computed as
multiplier times 2 to the attempt number, floored at minWait and capped at
maxWait. -/
def wait_exponential (multiplier minWait maxWait attemptNumber : Nat) : Nat :=
  Nat.max minWait (Nat.min (multiplier * 2 ^ attemptNumber) maxWait)

/-- The wait configuration of _create_retry_decorator:
wait_exponential(multiplier=1, min=1, max=60). -/
def retryDelay (attemptNumber : Nat) : Nat :=
  wait_exponential 1 1 60 attemptNumber

/-- Observable outcome of a tenacity-wrapped call: final result, index of
the last attempt executed, and the sleep delays taken between attempts. -/
structure RetryTrace (R : Type) where
  result : Except UllmError R
  lastAttempt : Nat
  delays : List Nat

/-- The tenacity loop of the decorator built by _create_retry_decorator
(stop_after_attempt(numRetries), reraise=True), starting at attempt k.
A successful attempt returns; a failed attempt re-raises immediately when
the exception type is not retried or the attempt budget is exhausted, and
otherwise sleeps retryDelay k and runs the next attempt. -/
def tenacityRun {R : Type} (call : Nat → Except UllmError R) (stopAfter k : Nat) :
    RetryTrace R :=
  match call k with
  | .ok r => ⟨.ok r, k, []⟩
  | .error e =>
    if h : retry_predicate e = true ∧ k < stopAfter then
      let rest := tenacityRun call stopAfter (k + 1)
      ⟨rest.result, rest.lastAttempt, retryDelay k :: rest.delays⟩
    else ⟨.error e, k, []⟩
termination_by stopAfter - k
decreasing_by simp_wf; omega

/-- main.completion: resolve the model, fetch the client from the registry,
and run the client call, wrapped in the retry decorator exactly when
num_retries is positive and the request does not stream.  The network-level
behaviour of each client invocation is an oracle from attempt number to
outcome. -/
def completion {R : Type} (model : String) (numRetries : Nat) (stream : Bool)
    (call : ClientClass → Nat → Except UllmError R) : Except UllmError R :=
  match parse_model_name model with
  | .error e => .error e
  | .ok pm =>
    match get_client pm.1 "unknown" with
    | .error e => .error e
    | .ok c =>
      if 0 < numRetries ∧ stream = false then (tenacityRun (call c) numRetries 1).result
      else call c 1

/-- main.acompletion: textually parallel to main.completion, awaiting the
async client call instead of invoking the sync one. -/
def acompletion {R : Type} (model : String) (numRetries : Nat) (stream : Bool)
    (call : ClientClass → Nat → Except UllmError R) : Except UllmError R :=
  match parse_model_name model with
  | .error e => .error e
  | .ok pm =>
    match get_client pm.1 "unknown" with
    | .error e => .error e
    | .ok c =>
      if 0 < numRetries ∧ stream = false then (tenacityRun (call c) numRetries 1).result
      else call c 1

lemma tenacityRun_not_retryable {R : Type} (call : Nat → Except UllmError R)
    (stopAfter k : Nat) (e : UllmError) (hc : call k = .error e)
    (hr : retry_predicate e = false) :
    tenacityRun call stopAfter k = ⟨.error e, k, []⟩ := by
  unfold tenacityRun
  rw [hc]
  simp [hr]

lemma tenacityRun_all_fail {R : Type} (call : Nat → Except UllmError R)
    (stopAfter : Nat) :
    ∀ (n k : Nat), stopAfter = k + n →
      (∀ j, k ≤ j → j ≤ stopAfter → ∃ e, call j = .error e ∧ retry_predicate e = true) →
      tenacityRun call stopAfter k =
        ⟨call stopAfter, stopAfter, (List.range n).map (fun i => retryDelay (k + i))⟩ := by
  intro n
  induction n with
  | zero =>
    intro k hk hfail
    obtain ⟨e, he, hre⟩ := hfail k (le_refl k) (by omega)
    unfold tenacityRun
    rw [he]
    have hlt : ¬ k < stopAfter := by omega
    simp only [hre, hlt, and_false, dif_neg, not_false_iff]
    have hk2 : stopAfter = k := by omega
    subst hk2
    rw [he]
    simp
  | succ n ih =>
    intro k hk hfail
    obtain ⟨e, he, hre⟩ := hfail k (le_refl k) (by omega)
    unfold tenacityRun
    rw [he]
    have hlt : k < stopAfter := by omega
    simp only [hre, hlt, and_true, dif_pos, true_and]
    rw [ih (k + 1) (by omega) (fun j hj1 hj2 => hfail j (by omega) hj2)]
    refine congrArg (fun ds => RetryTrace.mk (call stopAfter) stopAfter ds) ?_
    rw [List.range_succ_eq_map, List.map_cons, List.map_map]
    refine congrArg₂ (fun a b => List.cons a b) (by simp) ?_
    refine List.map_congr_left ?_
    intro i _
    simp only [Function.comp]
    refine congrArg retryDelay (by omega)

lemma retryDelay_bounds (k : Nat) : 1 ≤ retryDelay k ∧ retryDelay k ≤ 60 := by
  have hpow : 0 < 2 ^ k := Nat.pos_pow_of_pos k (by omega)
  simp only [retryDelay, wait_exponential, Nat.min_def, Nat.max_def, one_mul]
  split_ifs <;> omega

lemma retryDelay_strict_mono (k : Nat) (h : retryDelay k < 60) :
    retryDelay k < retryDelay (k + 1) := by
  have hpow : 0 < 2 ^ k := Nat.pos_pow_of_pos k (by omega)
  have hsucc : 2 ^ (k + 1) = 2 * 2 ^ k := by
    rw [pow_succ]
    ring
  simp only [retryDelay, wait_exponential, Nat.min_def, Nat.max_def, one_mul] at h ⊢
  split_ifs at h ⊢ <;> omega

/-- C5: for a non-streaming call with positive num_retries on a resolvable
provider, a first attempt failing with a non-retried kind propagates
immediately with no further attempt and no delay; when every attempt fails
with a RateLimit or Timeout kind the call is retried up to the configured
attempt count with the exponential delay schedule and the last error is
re-raised unchanged; and each delay is at least 1 unit, at most 60 units,
and strictly below the next delay while under the cap. -/
theorem retry_policy_spec {R : Type} (model provider modelName : String)
    (c : ClientClass) (numRetries : Nat)
    (call : ClientClass → Nat → Except UllmError R)
    (hp : parse_model_name model = .ok (provider, modelName))
    (hc : get_client provider "unknown" = .ok c)
    (hn : 0 < numRetries) :
    (∀ e, call c 1 = .error e → retry_predicate e = false →
      completion model numRetries false call = .error e ∧
      tenacityRun (call c) numRetries 1 = ⟨.error e, 1, []⟩) ∧
    ((∀ j, 1 ≤ j → j ≤ numRetries → ∃ e, call c j = .error e ∧ retry_predicate e = true) →
      completion model numRetries false call = call c numRetries ∧
      (tenacityRun (call c) numRetries 1).lastAttempt = numRetries ∧
      (tenacityRun (call c) numRetries 1).delays =
        (List.range (numRetries - 1)).map (fun i => retryDelay (1 + i))) ∧
    (∀ k, 1 ≤ retryDelay k ∧ retryDelay k ≤ 60) ∧
    (∀ k, retryDelay k < 60 → retryDelay k < retryDelay (k + 1)) := by
  have hcompl : completion model numRetries false call =
      (tenacityRun (call c) numRetries 1).result := by
    unfold completion
    rw [hp]
    dsimp only
    rw [hc]
    dsimp only
    simp [hn]
  refine ⟨?_, ?_, retryDelay_bounds, retryDelay_strict_mono⟩
  · intro e he hre
    have ht := tenacityRun_not_retryable (call c) numRetries 1 e he hre
    exact ⟨by rw [hcompl, ht], ht⟩
  · intro hfail
    have ht := tenacityRun_all_fail (call c) numRetries (numRetries - 1) 1 (by omega) hfail
    refine ⟨by rw [hcompl, ht], by rw [ht], by rw [ht]⟩

/-- Witness for retry_policy_spec: three attempts that all fail with rate
limiting give back the last RateLimitError after delays of 2 and 4 units. -/
theorem retry_policy_spec_witness :
    completion "anthropic/claude-3-opus" 3 false
        (fun _ k => (.error (RateLimitError (toString k) none none) : Except UllmError Unit)) =
      .error (RateLimitError "3" none none) ∧
    (tenacityRun
        (fun k => (.error (RateLimitError (toString k) none none) : Except UllmError Unit))
        3 1).delays = [2, 4] := by
  have h := retry_policy_spec (R := Unit) "anthropic/claude-3-opus" "anthropic"
    "claude-3-opus" ClientClass.anthropicClient 3
    (fun _ k => .error (RateLimitError (toString k) none none))
    (by rfl) (by rfl) (by omega)
  obtain ⟨hexh1, hexh2, hexh3⟩ := h.2.1
    (fun j _ _ => ⟨RateLimitError (toString j) none none, rfl, rfl⟩)
  refine ⟨hexh1, ?_⟩
  rw [hexh3]
  rfl

/-! ## Canonical response types (ullm/types.py)

Python None and JSON null are the same value, so wire-derived optional
fields are J values with J.null standing for None. -/

/-- types.Usage. -/
structure Usage where
  prompt_tokens : Int
  completion_tokens : Int
  total_tokens : Int

/-- types.FunctionCall. -/
structure FunctionCall where
  name : J
  arguments : J

/-- types.ToolCall. -/
structure ToolCall where
  id : J
  type : J
  function : FunctionCall

/-- types.Message (as constructed by the adapters). -/
structure Message where
  role : J
  content : J
  tool_calls : Option (List ToolCall)

/-- types.Choice. -/
structure Choice where
  index : J
  message : Message
  finish_reason : J

/-- types.ModelResponse. -/
structure ModelResponse where
  id : J
  object : String
  created : Int
  model : J
  choices : List Choice
  usage : Option Usage
  system_fingerprint : J

/-- types.Delta (all fields default to None). -/
structure Delta where
  role : J := J.null
  content : J := J.null
  tool_calls : J := J.null
  function_call : J := J.null

/-- types.StreamChoice. -/
structure StreamChoice where
  index : J
  delta : Delta
  finish_reason : J

/-- types.StreamChunk. -/
structure StreamChunk where
  id : J
  object : String
  created : Int
  model : J
  choices : List StreamChoice
  usage : Option Usage := none
  system_fingerprint : J := J.null

/-! ## Shared helpers -/

/-- BaseClient._handle_error: HTTP status to canonical exception; every
branch raises, so the result is the raised error. -/
def handle_error (status : Int) (errorText : String) (model provider : String) : UllmError :=
  if status == 401 then AuthenticationError errorText (some model) (some provider)
  else if status == 400 then BadRequestError errorText (some model) (some provider)
  else if status == 429 then RateLimitError errorText (some model) (some provider)
  else if status == 504 then Timeout errorText (some model) (some provider)
  else APIError errorText status (some model) (some provider)

/-- Fields of a JSON object; wire dicts are objects (Python .get on a
non-dict would raise, which the wire never produces). -/
def blockFields : J → List (String × J)
  | .obj fs => fs
  | _ => []

/-- Python d.get(k, dflt) yielding an integer; the wire carries integers for
these keys. -/
def pyGetInt (d : List (String × J)) (k : String) (dflt : Int) : Int :=
  match pyDictGet d k with
  | some (J.num n) => n
  | some _ => dflt
  | none => dflt

/-- Python `x or dflt` on an optional integer (0 and None both fall back). -/
def pyOrInt (v : Option Int) (dflt : Int) : Int :=
  match v with
  | some n => if n != 0 then n else dflt
  | none => dflt

def jsonEscapeChar (c : Char) : String :=
  if c = '\\' then "\\\\"
  else if c = '\x22' then "\\\x22"
  else String.singleton c

def jsonEscape (s : String) : String :=
  s.data.foldl (fun acc c => acc ++ jsonEscapeChar c) ""

mutual

/-- json.dumps as used for tool-call arguments. -/
def jsonDumps : J → String
  | .null => "null"
  | .bool true => "true"
  | .bool false => "false"
  | .num n => toString n
  | .str s => "\x22" ++ jsonEscape s ++ "\x22"
  | .arr xs => "[" ++ jsonDumpsArr xs ++ "]"
  | .obj fs => "\x7b" ++ jsonDumpsObj fs ++ "\x7d"

def jsonDumpsArr : List J → String
  | [] => ""
  | [x] => jsonDumps x
  | x :: y :: xs => jsonDumps x ++ ", " ++ jsonDumpsArr (y :: xs)

def jsonDumpsObj : List (String × J) → String
  | [] => ""
  | [e] => "\x22" ++ jsonEscape e.1 ++ "\x22: " ++ jsonDumps e.2
  | e :: f :: es =>
    "\x22" ++ jsonEscape e.1 ++ "\x22: " ++ jsonDumps e.2 ++ ", " ++ jsonDumpsObj (f :: es)

end

/-! ## Anthropic and Bedrock request preparation
(ullm/clients/anthropic.py, ullm/clients/bedrock.py) -/

/-- The wire message appended for each non-system entry. -/
def toWireMsg (msg : List (String × J)) : J :=
  J.obj [("role", (pyDictGet msg "role").getD J.null),
         ("content", (pyDictGet msg "content").getD J.null)]

/-- AnthropicClient._convert_messages; BedrockClient._prepare_bedrock_request
inlines the identical extraction loop.  Returns the last system content seen
(None when there was none) and the remaining messages in order. -/
def convert_messages (messages : List (List (String × J))) : J × List J :=
  messages.foldl
    (fun acc msg =>
      if jEqStr ((pyDictGet msg "role").getD J.null) "system" then
        ((pyDictGet msg "content").getD J.null, acc.2)
      else
        (acc.1, acc.2 ++ [toWireMsg msg]))
    (J.null, [])

/-- One tool of AnthropicClient._convert_tools; BedrockClient inlines the
identical restructuring (function.parameters becomes input_schema). -/
def convert_tool (tool : List (String × J)) : J :=
  let func :=
    match pyDictGet tool "function" with
    | some (J.obj fs) => fs
    | some _ => []
    | none => []
  J.obj [("name", (pyDictGet func "name").getD J.null),
         ("description", (pyDictGet func "description").getD (J.str "")),
         ("input_schema", (pyDictGet func "parameters").getD (J.obj []))]

/-- The JSON-mode instruction literal of AnthropicClient._prepare_request. -/
def json_instruction : String := "\n\nPlease respond with valid JSON only."

/-- json_instruction.strip(). -/
def json_instruction_stripped : String := "Please respond with valid JSON only."

/-- Python string concatenation of the system content and the instruction;
the wire system content is a string (anything else would raise TypeError). -/
def jStrAppend (a : J) (s2 : String) : J :=
  match a with
  | .str s => .str (s ++ s2)
  | _ => J.null

/-- AnthropicClient._prepare_request. -/
def anthropic_prepare_request (model : String) (messages : List (List (String × J)))
    (temperature : Option J) (max_tokens : Option Int) (stream : Bool)
    (tools : Option (List (List (String × J)))) (tool_choice : Option J)
    (response_format : Option J) (kwargs : List (String × J)) : List (String × J) :=
  let conv := convert_messages messages
  let system_message := conv.1
  let payload : List (String × J) :=
    [("model", J.str model),
     ("messages", J.arr conv.2),
     ("max_tokens", J.num (pyOrInt max_tokens 4096)),
     ("stream", J.bool stream)]
  let payload :=
    if pyTruthy system_message then pyDictSet payload "system" system_message else payload
  let payload :=
    match temperature with
    | some t => pyDictSet payload "temperature" t
    | none => payload
  let payload :=
    match tools with
    | some ts =>
      if !ts.isEmpty then pyDictSet payload "tools" (J.arr (ts.map convert_tool))
      else payload
    | none => payload
  let payload :=
    match tool_choice with
    | some tc =>
      if pyTruthy tc then
        match tc with
        | J.str s =>
          if s == "auto" then
            pyDictSet payload "tool_choice" (J.obj [("type", J.str "auto")])
          else if s == "required" || s == "any" then
            pyDictSet payload "tool_choice" (J.obj [("type", J.str "any")])
          else payload
        | J.obj fs => pyDictSet payload "tool_choice" (J.obj fs)
        | _ => payload
      else payload
    | none => payload
  let payload :=
    match response_format with
    | some rf =>
      if pyTruthy rf then
        pyDictSet payload "system"
          (if pyTruthy system_message then jStrAppend system_message json_instruction
           else J.str json_instruction_stripped)
      else payload
    | none => payload
  pyDictUpdate payload kwargs

/-- BedrockClient._prepare_bedrock_request.  It accepts extra kwargs but
never merges them into the payload, and it has no stream, tool_choice or
response_format parameters at all. -/
def bedrock_prepare_request (messages : List (List (String × J)))
    (temperature : Option J) (max_tokens : Option Int)
    (tools : Option (List (List (String × J)))) : List (String × J) :=
  let conv := convert_messages messages
  let system_message := conv.1
  let payload : List (String × J) :=
    [("messages", J.arr conv.2),
     ("max_tokens", J.num (pyOrInt max_tokens 4096))]
  let payload :=
    if pyTruthy system_message then pyDictSet payload "system" system_message else payload
  let payload :=
    match temperature with
    | some t => pyDictSet payload "temperature" t
    | none => payload
  let payload :=
    match tools with
    | some ts =>
      if !ts.isEmpty then pyDictSet payload "tools" (J.arr (ts.map convert_tool))
      else payload
    | none => payload
  pyDictSet payload "anthropic_version" (J.str "bedrock-2023-05-31")

/-- The body BedrockClient.completion sends: it receives tool_choice and
response_format from the caller but forwards neither to
_prepare_bedrock_request, so the payload does not depend on them. -/
def bedrock_request_payload (messages : List (List (String × J)))
    (temperature : Option J) (max_tokens : Option Int)
    (tools : Option (List (List (String × J))))
    (tool_choice : Option J) (response_format : Option J) : List (String × J) :=
  bedrock_prepare_request messages temperature max_tokens tools

/-! ## Anthropic and Bedrock response parsing -/

/-- data.get with default empty list; the wire content field is an array. -/
def contentBlocksOf (data : List (String × J)) : List J :=
  match pyDictGet data "content" with
  | some (J.arr bs) => bs
  | some _ => []
  | none => []

/-- block.get("type") == "text" on a content block. -/
def isTextBlock (b : J) : Bool :=
  optJEqStr (pyDictGet (blockFields b) "type") "text"

/-- block.get("type") == "tool_use" on a content block. -/
def isToolUseBlock (b : J) : Bool :=
  optJEqStr (pyDictGet (blockFields b) "type") "tool_use"

/-- block.get("text", ""); wire text values are strings. -/
def blockText (b : J) : String :=
  match pyDictGet (blockFields b) "text" with
  | some (J.str s) => s
  | some _ => ""
  | none => ""

/-- The ToolCall built from a tool_use block (arguments re-serialized to a
JSON string by json.dumps even when the wire input was structured). -/
def toolCallOfBlock (b : J) : ToolCall :=
  { id := (pyDictGet (blockFields b) "id").getD (J.str "")
    type := J.str "function"
    function :=
      { name := (pyDictGet (blockFields b) "name").getD (J.str "")
        arguments := J.str (jsonDumps ((pyDictGet (blockFields b) "input").getD (J.obj []))) } }

/-- The single pass over content blocks accumulating text and tool calls,
written identically in AnthropicClient._parse_response and
BedrockClient._parse_bedrock_response. -/
def extractBlocks (blocks : List J) : String × List ToolCall :=
  blocks.foldl
    (fun acc b =>
      if isTextBlock b then (acc.1 ++ blockText b, acc.2)
      else if isToolUseBlock b then (acc.1, acc.2 ++ [toolCallOfBlock b])
      else acc)
    ("", [])

/-- usage object of the response, default empty. -/
def usageFields (data : List (String × J)) : List (String × J) :=
  match pyDictGet data "usage" with
  | some (J.obj fs) => fs
  | some _ => []
  | none => []

/-- AnthropicClient._parse_response (now is int(time.time())). -/
def anthropic_parse_response (data : List (String × J)) (model : String) (now : Int) :
    ModelResponse :=
  let ex := extractBlocks (contentBlocksOf data)
  let message : Message :=
    { role := J.str "assistant"
      content := if ex.1 != "" then J.str ex.1 else J.null
      tool_calls := if !ex.2.isEmpty then some ex.2 else none }
  let choice : Choice :=
    { index := J.num 0
      message := message
      finish_reason := (pyDictGet data "stop_reason").getD J.null }
  let usage : Usage :=
    { prompt_tokens := pyGetInt (usageFields data) "input_tokens" 0
      completion_tokens := pyGetInt (usageFields data) "output_tokens" 0
      total_tokens :=
        pyGetInt (usageFields data) "input_tokens" 0 +
          pyGetInt (usageFields data) "output_tokens" 0 }
  { id := (pyDictGet data "id").getD (J.str "")
    object := "chat.completion"
    created := now
    model := J.str model
    choices := [choice]
    usage := some usage
    system_fingerprint := J.null }

/-- BedrockClient._parse_bedrock_response: identical to the Anthropic parse
except that a missing response id falls back to a synthesized
bedrock-prefixed placeholder. -/
def bedrock_parse_bedrock_response (data : List (String × J)) (model : String) (now : Int) :
    ModelResponse :=
  let ex := extractBlocks (contentBlocksOf data)
  let message : Message :=
    { role := J.str "assistant"
      content := if ex.1 != "" then J.str ex.1 else J.null
      tool_calls := if !ex.2.isEmpty then some ex.2 else none }
  let choice : Choice :=
    { index := J.num 0
      message := message
      finish_reason := (pyDictGet data "stop_reason").getD J.null }
  let usage : Usage :=
    { prompt_tokens := pyGetInt (usageFields data) "input_tokens" 0
      completion_tokens := pyGetInt (usageFields data) "output_tokens" 0
      total_tokens :=
        pyGetInt (usageFields data) "input_tokens" 0 +
          pyGetInt (usageFields data) "output_tokens" 0 }
  { id := (pyDictGet data "id").getD (J.str ("bedrock-" ++ toString now))
    object := "chat.completion"
    created := now
    model := J.str model
    choices := [choice]
    usage := some usage
    system_fingerprint := J.null }

/-! ## Bedrock error classification -/

/-- Python `needle in hay` on strings. -/
def containsSubstr (needle hay : String) : Bool :=
  hay.data.tails.any (fun t => needle.data.isPrefixOf t)

/-- The except-chain of BedrockClient.completion: substring matching on the
stringified transport exception. -/
def bedrock_classify_error (msg model : String) : UllmError :=
  if containsSubstr "AuthenticationException" msg ||
      containsSubstr "UnrecognizedClientException" msg then
    AuthenticationError msg (some model) (some "bedrock")
  else if containsSubstr "ValidationException" msg then
    BadRequestError msg (some model) (some "bedrock")
  else if containsSubstr "ThrottlingException" msg then
    RateLimitError msg (some model) (some "bedrock")
  else
    APIError msg 500 (some model) (some "bedrock")

/-- The except-chain of BedrockClient._stream_completion, which matches only
AuthenticationException before falling through to APIError. -/
def bedrock_classify_stream_error (msg model : String) : UllmError :=
  if containsSubstr "AuthenticationException" msg then
    AuthenticationError msg (some model) (some "bedrock")
  else
    APIError msg 500 (some model) (some "bedrock")

/-- BedrockClient.completion after the payload is sent: the transport either
raises (stringified and classified) or returns a response body to parse. -/
def bedrock_completion_run (model : String) (wire : Except String (List (String × J)))
    (now : Int) : Except UllmError ModelResponse :=
  match wire with
  | .error msg => .error (bedrock_classify_error msg model)
  | .ok data => .ok (bedrock_parse_bedrock_response data model now)

/-- BedrockClient.acompletion: boto3 has no async mode, so the sync
completion runs on an executor thread and its result is awaited. -/
def bedrock_acompletion_run (model : String) (wire : Except String (List (String × J)))
    (now : Int) : Except UllmError ModelResponse :=
  bedrock_completion_run model wire now

/-! ## Streaming translation -/

/-- View a wire value as the String the pydantic field stores (the wire
object field is a string). -/
def jAsString (v : J) (dflt : String) : String :=
  match v with
  | .str s => s
  | _ => dflt

/-- OpenAIClient._parse_stream_chunk: one wire chunk to one StreamChunk. -/
def openai_parse_stream_chunk (data : List (String × J)) (now : Int) : StreamChunk :=
  let choices :=
    (match pyDictGet data "choices" with
     | some (J.arr cs) => cs
     | some _ => []
     | none => []).map (fun cd =>
      let cf := blockFields cd
      let dd :=
        match pyDictGet cf "delta" with
        | some (J.obj fs) => fs
        | some _ => []
        | none => []
      { index := (pyDictGet cf "index").getD (J.num 0)
        delta :=
          { role := (pyDictGet dd "role").getD J.null
            content := (pyDictGet dd "content").getD J.null
            tool_calls := (pyDictGet dd "tool_calls").getD J.null
            function_call := (pyDictGet dd "function_call").getD J.null }
        finish_reason := (pyDictGet cf "finish_reason").getD J.null : StreamChoice })
  let usage :=
    match pyDictGet data "usage" with
    | some u =>
      if pyTruthy u then
        some
          { prompt_tokens := pyGetInt (blockFields u) "prompt_tokens" 0
            completion_tokens := pyGetInt (blockFields u) "completion_tokens" 0
            total_tokens := pyGetInt (blockFields u) "total_tokens" 0 }
      else none
    | none => none
  { id := (pyDictGet data "id").getD (J.str "")
    object :=
      jAsString ((pyDictGet data "object").getD (J.str "chat.completion.chunk"))
        "chat.completion.chunk"
    created := pyGetInt data "created" now
    model := (pyDictGet data "model").getD (J.str "")
    choices := choices
    usage := usage
    system_fingerprint := (pyDictGet data "system_fingerprint").getD J.null }

/-- AnthropicClient._parse_stream_chunk: event-type dispatch; unknown event
types yield no chunk. -/
def anthropic_parse_stream_chunk (data : List (String × J)) (model : String) (now : Int) :
    Option StreamChunk :=
  let eventType := (pyDictGet data "type").getD J.null
  if jEqStr eventType "message_start" then
    some
      { id :=
          (pyDictGet
            (match pyDictGet data "message" with
             | some (J.obj fs) => fs
             | some _ => []
             | none => []) "id").getD (J.str "")
        object := "chat.completion.chunk"
        created := now
        model := J.str model
        choices := [{ index := J.num 0, delta := {}, finish_reason := J.null }] }
  else if jEqStr eventType "content_block_start" then
    let block :=
      match pyDictGet data "content_block" with
      | some (J.obj fs) => fs
      | some _ => []
      | none => []
    if optJEqStr (pyDictGet block "type") "text" then
      some
        { id := J.str ""
          object := "chat.completion.chunk"
          created := now
          model := J.str model
          choices :=
            [{ index := J.num 0
               delta := { role := J.str "assistant", content := J.str "" }
               finish_reason := J.null }] }
    else none
  else if jEqStr eventType "content_block_delta" then
    let dd :=
      match pyDictGet data "delta" with
      | some (J.obj fs) => fs
      | some _ => []
      | none => []
    if optJEqStr (pyDictGet dd "type") "text_delta" then
      some
        { id := J.str ""
          object := "chat.completion.chunk"
          created := now
          model := J.str model
          choices :=
            [{ index := J.num 0
               delta := { content := (pyDictGet dd "text").getD (J.str "") }
               finish_reason := J.null }] }
    else none
  else if jEqStr eventType "message_delta" then
    let dd :=
      match pyDictGet data "delta" with
      | some (J.obj fs) => fs
      | some _ => []
      | none => []
    let usageData := (pyDictGet data "usage").getD (J.obj [])
    let usage :=
      if pyTruthy usageData then
        some
          { prompt_tokens := 0
            completion_tokens := pyGetInt (blockFields usageData) "output_tokens" 0
            total_tokens := pyGetInt (blockFields usageData) "output_tokens" 0 }
      else none
    some
      { id := J.str ""
        object := "chat.completion.chunk"
        created := now
        model := J.str model
        choices :=
          [{ index := J.num 0
             delta := {}
             finish_reason := (pyDictGet dd "stop_reason").getD J.null }]
        usage := usage }
  else none

/-- BedrockClient._parse_bedrock_stream_chunk: like the Anthropic dispatch
but with no content_block_start case and no usage on message_delta. -/
def bedrock_parse_stream_chunk (data : List (String × J)) (model : String) (now : Int) :
    Option StreamChunk :=
  let eventType := (pyDictGet data "type").getD J.null
  if jEqStr eventType "message_start" then
    some
      { id :=
          (pyDictGet
            (match pyDictGet data "message" with
             | some (J.obj fs) => fs
             | some _ => []
             | none => []) "id").getD (J.str "")
        object := "chat.completion.chunk"
        created := now
        model := J.str model
        choices := [{ index := J.num 0, delta := {}, finish_reason := J.null }] }
  else if jEqStr eventType "content_block_delta" then
    let dd :=
      match pyDictGet data "delta" with
      | some (J.obj fs) => fs
      | some _ => []
      | none => []
    if optJEqStr (pyDictGet dd "type") "text_delta" then
      some
        { id := J.str ""
          object := "chat.completion.chunk"
          created := now
          model := J.str model
          choices :=
            [{ index := J.num 0
               delta := { content := (pyDictGet dd "text").getD (J.str "") }
               finish_reason := J.null }] }
    else none
  else if jEqStr eventType "message_delta" then
    let dd :=
      match pyDictGet data "delta" with
      | some (J.obj fs) => fs
      | some _ => []
      | none => []
    some
      { id := J.str ""
        object := "chat.completion.chunk"
        created := now
        model := J.str model
        choices :=
          [{ index := J.num 0
             delta := {}
             finish_reason := (pyDictGet dd "stop_reason").getD J.null }] }
  else none

/-- One line of an SSE body as the adapters see it, after the transport has
delivered it and json.loads has either produced a value or raised:
a line without the data marker, a data line whose stripped payload is the
DONE sentinel, a data line whose payload is malformed JSON, or a data line
whose payload parsed to a JSON object. -/
inductive PyLine where
  | noData (s : String)
  | done
  | malformed (s : String)
  | event (j : List (String × J))

/-- The line loop of OpenAIClient._stream_completion: skip non-data lines,
stop at the DONE sentinel, skip lines whose JSON fails to parse, translate
and yield every other data line.  GroqClient inherits this unchanged. -/
def openai_stream_lines (now : Int) : List PyLine → List StreamChunk
  | [] => []
  | .noData _ :: rest => openai_stream_lines now rest
  | .done :: _ => []
  | .malformed _ :: rest => openai_stream_lines now rest
  | .event j :: rest => openai_parse_stream_chunk j now :: openai_stream_lines now rest

/-- The line loop of OpenAIClient._astream_completion (textually parallel to
the sync loop). -/
def openai_astream_lines (now : Int) : List PyLine → List StreamChunk
  | [] => []
  | .noData _ :: rest => openai_astream_lines now rest
  | .done :: _ => []
  | .malformed _ :: rest => openai_astream_lines now rest
  | .event j :: rest => openai_parse_stream_chunk j now :: openai_astream_lines now rest

/-- The line loop of AnthropicClient._stream_completion: no DONE handling
(a DONE sentinel line is malformed JSON there and is skipped), a parse
returning no chunk yields nothing. -/
def anthropic_stream_lines (model : String) (now : Int) : List PyLine → List StreamChunk
  | [] => []
  | .noData _ :: rest => anthropic_stream_lines model now rest
  | .done :: rest => anthropic_stream_lines model now rest
  | .malformed _ :: rest => anthropic_stream_lines model now rest
  | .event j :: rest =>
    match anthropic_parse_stream_chunk j model now with
    | some c => c :: anthropic_stream_lines model now rest
    | none => anthropic_stream_lines model now rest

/-- The line loop of AnthropicClient._astream_completion (textually parallel
to the sync loop). -/
def anthropic_astream_lines (model : String) (now : Int) : List PyLine → List StreamChunk
  | [] => []
  | .noData _ :: rest => anthropic_astream_lines model now rest
  | .done :: rest => anthropic_astream_lines model now rest
  | .malformed _ :: rest => anthropic_astream_lines model now rest
  | .event j :: rest =>
    match anthropic_parse_stream_chunk j model now with
    | some c => c :: anthropic_astream_lines model now rest
    | none => anthropic_astream_lines model now rest

/-- One event of a Bedrock response stream: its chunk bytes either parse to
a JSON object or json.loads raises with the given message. -/
inductive BedrockEvent where
  | event (j : List (String × J))
  | malformed (s : String)

/-- The event loop of BedrockClient._stream_completion.  The whole loop sits
inside the try block, so a json.loads failure on any event is caught by the
except chain and re-raised as a classified error, ending the stream; chunks
yielded before that point have already been delivered. -/
def bedrock_stream_run (model : String) (now : Int) :
    List BedrockEvent → List StreamChunk × Option UllmError
  | [] => ([], none)
  | .malformed s :: _ => ([], some (bedrock_classify_stream_error s model))
  | .event j :: rest =>
    let r := bedrock_stream_run model now rest
    match bedrock_parse_stream_chunk j model now with
    | some c => (c :: r.1, r.2)
    | none => r

/-! ## OpenAI-family request preparation and parsing, sync/async pairs -/

/-- OpenAIClient._prepare_request. -/
def openai_prepare_request (model : String) (messages : List J)
    (temperature : Option J) (max_tokens : Option Int) (stream : Bool)
    (tools : Option (List J)) (tool_choice : Option J)
    (response_format : Option J) (kwargs : List (String × J)) : List (String × J) :=
  let payload : List (String × J) :=
    [("model", J.str model), ("messages", J.arr messages), ("stream", J.bool stream)]
  let payload :=
    match temperature with
    | some t => pyDictSet payload "temperature" t
    | none => payload
  let payload :=
    match max_tokens with
    | some mt =>
      if ["o1", "o3", "gpt-5"].any (fun p => p.data.isPrefixOf model.data) then
        pyDictSet payload "max_completion_tokens" (J.num mt)
      else
        pyDictSet payload "max_tokens" (J.num mt)
    | none => payload
  let payload :=
    match tools with
    | some ts => if !ts.isEmpty then pyDictSet payload "tools" (J.arr ts) else payload
    | none => payload
  let payload :=
    match tool_choice with
    | some tc => if pyTruthy tc then pyDictSet payload "tool_choice" tc else payload
    | none => payload
  let payload :=
    match response_format with
    | some rf => if pyTruthy rf then pyDictSet payload "response_format" rf else payload
    | none => payload
  pyDictUpdate payload kwargs

/-- One choice of OpenAIClient._parse_response.  Python indexes the
tool-call fields directly (KeyError when absent); the wire always carries
them, modelled with a null default. -/
def openai_parse_choice (cd : J) : Choice :=
  let cf := blockFields cd
  let md :=
    match pyDictGet cf "message" with
    | some (J.obj fs) => fs
    | some _ => []
    | none => []
  let tool_calls : Option (List ToolCall) :=
    if (pyDictGet md "tool_calls").isSome then
      some
        ((match pyDictGet md "tool_calls" with
          | some (J.arr tcs) => tcs
          | _ => []).map (fun tc =>
          let tf := blockFields tc
          let fn :=
            match pyDictGet tf "function" with
            | some (J.obj fs) => fs
            | some _ => []
            | none => []
          { id := (pyDictGet tf "id").getD J.null
            type := (pyDictGet tf "type").getD J.null
            function :=
              { name := (pyDictGet fn "name").getD J.null
                arguments := (pyDictGet fn "arguments").getD J.null } }))
    else none
  { index := (pyDictGet cf "index").getD (J.num 0)
    message :=
      { role := (pyDictGet md "role").getD (J.str "assistant")
        content := (pyDictGet md "content").getD J.null
        tool_calls := tool_calls }
    finish_reason := (pyDictGet cf "finish_reason").getD J.null }

/-- OpenAIClient._parse_response. -/
def openai_parse_response (data : List (String × J)) (now : Int) : ModelResponse :=
  let choices :=
    (match pyDictGet data "choices" with
     | some (J.arr cs) => cs
     | some _ => []
     | none => []).map openai_parse_choice
  let usage :=
    match pyDictGet data "usage" with
    | some u =>
      if pyTruthy u then
        some
          { prompt_tokens := pyGetInt (blockFields u) "prompt_tokens" 0
            completion_tokens := pyGetInt (blockFields u) "completion_tokens" 0
            total_tokens := pyGetInt (blockFields u) "total_tokens" 0 }
      else none
    | none => none
  { id := (pyDictGet data "id").getD (J.str "")
    object := jAsString ((pyDictGet data "object").getD (J.str "chat.completion")) "chat.completion"
    created := pyGetInt data "created" now
    model := (pyDictGet data "model").getD (J.str "")
    choices := choices
    usage := usage
    system_fingerprint := (pyDictGet data "system_fingerprint").getD J.null }

/-- What the transport hands back for a non-streaming HTTP call. -/
structure HttpReply where
  status : Int
  jsonBody : List (String × J)
  textBody : String

/-- Non-streaming branch of OpenAIClient.completion: classify non-200
statuses through _handle_error, otherwise parse the JSON body. -/
def openai_completion_run (model : String) (reply : HttpReply) (now : Int) :
    Except UllmError ModelResponse :=
  if reply.status != 200 then
    .error (handle_error reply.status reply.textBody model "openai")
  else
    .ok (openai_parse_response reply.jsonBody now)

/-- Non-streaming branch of OpenAIClient.acompletion (textually parallel to
the sync branch, awaiting the post instead of blocking on it). -/
def openai_acompletion_run (model : String) (reply : HttpReply) (now : Int) :
    Except UllmError ModelResponse :=
  if reply.status != 200 then
    .error (handle_error reply.status reply.textBody model "openai")
  else
    .ok (openai_parse_response reply.jsonBody now)

/-- Non-streaming branch of AnthropicClient.completion. -/
def anthropic_completion_run (model : String) (reply : HttpReply) (now : Int) :
    Except UllmError ModelResponse :=
  if reply.status != 200 then
    .error (handle_error reply.status reply.textBody model "anthropic")
  else
    .ok (anthropic_parse_response reply.jsonBody model now)

/-- Non-streaming branch of AnthropicClient.acompletion (textually parallel
to the sync branch). -/
def anthropic_acompletion_run (model : String) (reply : HttpReply) (now : Int) :
    Except UllmError ModelResponse :=
  if reply.status != 200 then
    .error (handle_error reply.status reply.textBody model "anthropic")
  else
    .ok (anthropic_parse_response reply.jsonBody model now)

/-! ## Dictionary lemmas -/

lemma map_set_of_not_mem {α : Type} (es : List (String × α)) (k : String) (v : α)
    (h : ∀ e ∈ es, ¬ e.1 = k) :
    es.map (fun e => if e.1 == k then (k, v) else e) = es := by
  induction es with
  | nil => rfl
  | cons e es ih =>
    have he := h e (List.mem_cons_self e es)
    rw [List.map_cons, if_neg (by simpa using he),
      ih (fun x hx => h x (List.mem_cons_of_mem e hx))]

lemma find?_map_set_ne {α : Type} (es : List (String × α)) (k k2 : String) (v : α)
    (h : ¬ k2 = k) :
    List.find? (fun e => e.1 == k2) (es.map (fun e => if e.1 == k then (k, v) else e)) =
      List.find? (fun e => e.1 == k2) es := by
  induction es with
  | nil => rfl
  | cons e es ih =>
    by_cases he : e.1 = k
    · have h1 : ¬ e.1 = k2 := by
        rw [he]
        exact fun hh => h hh.symm
      rw [List.map_cons, if_pos (by simpa using he)]
      rw [List.find?_cons_of_neg _ (by simpa using fun hh => h hh.symm),
        List.find?_cons_of_neg _ (by simpa using h1)]
      exact ih
    · rw [List.map_cons, if_neg (by simpa using he)]
      by_cases hek2 : e.1 = k2
      · rw [List.find?_cons_of_pos _ (by simpa using hek2),
          List.find?_cons_of_pos _ (by simpa using hek2)]
      · rw [List.find?_cons_of_neg _ (by simpa using hek2),
          List.find?_cons_of_neg _ (by simpa using hek2)]
        exact ih

lemma find?_map_set_self {α : Type} (es : List (String × α)) (k : String) (v : α) :
    List.find? (fun e => e.1 == k) (es.map (fun e => if e.1 == k then (k, v) else e)) =
      (if (es.any fun e => e.1 == k) = true then some (k, v) else none) := by
  induction es with
  | nil => rfl
  | cons e es ih =>
    by_cases he : e.1 = k
    · rw [List.map_cons, if_pos (by simpa using he),
        List.find?_cons_of_pos _ (by simp), if_pos (by simp [List.any_cons, he])]
    · rw [List.map_cons, if_neg (by simpa using he),
        List.find?_cons_of_neg _ (by simpa using he), ih]
      have : ((e :: es).any fun e => e.1 == k) = (es.any fun e => e.1 == k) := by
        simp [List.any_cons, he]
      rw [this]

lemma pyDictGet_set {α : Type} (d : List (String × α)) (k k2 : String) (v : α) :
    pyDictGet (pyDictSet d k v) k2 = if k2 = k then some v else pyDictGet d k2 := by
  unfold pyDictGet pyDictSet
  by_cases hany : (d.any fun e => e.1 == k) = true
  · rw [if_pos hany]
    by_cases hk : k2 = k
    · subst hk
      rw [find?_map_set_self, if_pos hany, if_pos rfl]
      rfl
    · rw [find?_map_set_ne _ _ _ _ hk, if_neg hk]
  · rw [if_neg hany]
    have hnotin : ∀ e ∈ d, ¬ e.1 = k := by
      intro e he
      have := List.any_eq_false.mp (Bool.not_eq_true _ ▸ hany) e he
      simpa using this
    rw [List.find?_append]
    by_cases hk : k2 = k
    · subst hk
      have hdn : d.find? (fun e => e.1 == k2) = none := by
        rw [List.find?_eq_none]
        intro e he
        simpa using hnotin e he
      rw [hdn, if_pos rfl]
      simp [List.find?]
    · have h2 : List.find? (fun e => e.1 == k2) [(k, v)] = none := by
        rw [List.find?_eq_none]
        intro e he
        rw [List.mem_singleton] at he
        subst he
        simpa using fun hh => hk hh.symm
      rw [h2, if_neg hk]
      cases d.find? (fun e => e.1 == k2) <;> rfl

lemma pyDictGet_set_self {α : Type} (d : List (String × α)) (k : String) (v : α) :
    pyDictGet (pyDictSet d k v) k = some v := by
  rw [pyDictGet_set, if_pos rfl]

lemma pyDictGet_set_ne {α : Type} (d : List (String × α)) (k k2 : String) (v : α)
    (h : ¬ k2 = k) :
    pyDictGet (pyDictSet d k v) k2 = pyDictGet d k2 := by
  rw [pyDictGet_set, if_neg h]

lemma filter_map_set_ne {α : Type} (es : List (String × α)) (k k2 : String) (v : α)
    (h : ¬ k2 = k) :
    List.filter (fun e => e.1 == k2) (es.map (fun e => if e.1 == k then (k, v) else e)) =
      List.filter (fun e => e.1 == k2) es := by
  induction es with
  | nil => rfl
  | cons e es ih =>
    by_cases he : e.1 = k
    · have h1 : ¬ e.1 = k2 := by
        rw [he]
        exact fun hh => h hh.symm
      rw [List.map_cons, if_pos (by simpa using he)]
      rw [List.filter_cons_of_neg (by simpa using fun hh => h hh.symm),
        List.filter_cons_of_neg (by simpa using h1)]
      exact ih
    · rw [List.map_cons, if_neg (by simpa using he)]
      by_cases hek2 : e.1 = k2
      · rw [List.filter_cons_of_pos (by simpa using hek2),
          List.filter_cons_of_pos (by simpa using hek2), ih]
      · rw [List.filter_cons_of_neg (by simpa using hek2),
          List.filter_cons_of_neg (by simpa using hek2)]
        exact ih

lemma keyCount_set_ne {α : Type} (d : List (String × α)) (k k2 : String) (v : α)
    (h : ¬ k2 = k) :
    keyCount (pyDictSet d k v) k2 = keyCount d k2 := by
  unfold pyDictSet keyCount
  split
  · rw [filter_map_set_ne _ _ _ _ h]
  · rw [List.filter_append]
    have h2 : List.filter (fun e => e.1 == k2) [(k, v)] = [] := by
      rw [List.filter_cons_of_neg (by simpa using fun hh => h hh.symm)]
      rfl
    rw [h2, List.append_nil]

lemma keyCount_set_fresh {α : Type} (d : List (String × α)) (k : String) (v : α)
    (h : (d.any fun e => e.1 == k) = false) :
    keyCount (pyDictSet d k v) k = keyCount d k + 1 := by
  unfold pyDictSet keyCount
  rw [if_neg (by simp [h])]
  simp [List.filter_append]

lemma keyCount_eq_zero {α : Type} (d : List (String × α)) (k : String)
    (h : (d.any fun e => e.1 == k) = false) :
    keyCount d k = 0 := by
  unfold keyCount
  rw [List.length_eq_zero, List.filter_eq_nil_iff]
  intro e he
  have := List.any_eq_false.mp h e he
  simpa using this

lemma pyDictUpdate_nil {α : Type} (d : List (String × α)) : pyDictUpdate d [] = d := rfl

/-! ## convert_messages lemmas -/

lemma convert_messages_foldl_no_system (messages : List (List (String × J)))
    (acc : J × List J)
    (h : ∀ msg ∈ messages, (jEqStr ((pyDictGet msg "role").getD J.null) "system") = false) :
    messages.foldl
      (fun acc msg =>
        if jEqStr ((pyDictGet msg "role").getD J.null) "system" then
          ((pyDictGet msg "content").getD J.null, acc.2)
        else
          (acc.1, acc.2 ++ [toWireMsg msg]))
      acc = (acc.1, acc.2 ++ messages.map toWireMsg) := by
  induction messages generalizing acc with
  | nil => simp
  | cons m ms ih =>
    have hm := h m (List.mem_cons_self m ms)
    rw [List.foldl_cons, if_neg (by simp [hm])]
    rw [ih (acc.1, acc.2 ++ [toWireMsg m]) (fun msg hmsg => h msg (List.mem_cons_of_mem m hmsg))]
    simp

lemma convert_messages_no_system (messages : List (List (String × J)))
    (h : ∀ msg ∈ messages, (jEqStr ((pyDictGet msg "role").getD J.null) "system") = false) :
    convert_messages messages = (J.null, messages.map toWireMsg) := by
  unfold convert_messages
  rw [convert_messages_foldl_no_system messages (J.null, []) h]
  simp

lemma convert_messages_one_system (pre post : List (List (String × J)))
    (sysmsg : List (String × J))
    (hpre : ∀ msg ∈ pre, (jEqStr ((pyDictGet msg "role").getD J.null) "system") = false)
    (hpost : ∀ msg ∈ post, (jEqStr ((pyDictGet msg "role").getD J.null) "system") = false)
    (hsys : (jEqStr ((pyDictGet sysmsg "role").getD J.null) "system") = true) :
    convert_messages (pre ++ sysmsg :: post) =
      ((pyDictGet sysmsg "content").getD J.null, (pre ++ post).map toWireMsg) := by
  unfold convert_messages
  rw [List.foldl_append, convert_messages_foldl_no_system pre (J.null, []) hpre]
  rw [List.foldl_cons, if_pos (by simp [hsys])]
  rw [convert_messages_foldl_no_system post _ hpost]
  simp

/-! ## Payload field characterization -/

lemma anthro_base_set_system (a b c d v : J) :
    pyDictSet [("model", a), ("messages", b), ("max_tokens", c), ("stream", d)] "system" v =
      [("model", a), ("messages", b), ("max_tokens", c), ("stream", d), ("system", v)] := rfl

lemma anthro_base_get_system (a b c d : J) :
    pyDictGet [("model", a), ("messages", b), ("max_tokens", c), ("stream", d)] "system" =
      none := rfl

lemma anthro_base5_get_system (a b c d v : J) :
    pyDictGet [("model", a), ("messages", b), ("max_tokens", c), ("stream", d), ("system", v)]
      "system" = some v := rfl

lemma anthro_base_count_system (a b c d : J) :
    keyCount [("model", a), ("messages", b), ("max_tokens", c), ("stream", d)] "system" =
      0 := rfl

lemma anthro_base5_count_system (a b c d v : J) :
    keyCount [("model", a), ("messages", b), ("max_tokens", c), ("stream", d), ("system", v)]
      "system" = 1 := rfl

lemma anthro_base_get_messages (a b c d : J) :
    pyDictGet [("model", a), ("messages", b), ("max_tokens", c), ("stream", d)] "messages" =
      some b := rfl

lemma anthro_base5_get_messages (a b c d v : J) :
    pyDictGet [("model", a), ("messages", b), ("max_tokens", c), ("stream", d), ("system", v)]
      "messages" = some b := rfl

lemma bed_base_set_system (a b v : J) :
    pyDictSet [("messages", a), ("max_tokens", b)] "system" v =
      [("messages", a), ("max_tokens", b), ("system", v)] := rfl

lemma bed_base_get_system (a b : J) :
    pyDictGet [("messages", a), ("max_tokens", b)] "system" = none := rfl

lemma bed_base3_get_system (a b v : J) :
    pyDictGet [("messages", a), ("max_tokens", b), ("system", v)] "system" = some v := rfl

lemma bed_base_count_system (a b : J) :
    keyCount [("messages", a), ("max_tokens", b)] "system" = 0 := rfl

lemma bed_base3_count_system (a b v : J) :
    keyCount [("messages", a), ("max_tokens", b), ("system", v)] "system" = 1 := rfl

lemma bed_base_get_messages (a b : J) :
    pyDictGet [("messages", a), ("max_tokens", b)] "messages" = some a := rfl

lemma bed_base3_get_messages (a b v : J) :
    pyDictGet [("messages", a), ("max_tokens", b), ("system", v)] "messages" = some a := rfl

set_option maxHeartbeats 1000000 in
lemma anthropic_payload_system_fields (model : String)
    (messages : List (List (String × J))) (temperature : Option J)
    (max_tokens : Option Int) (stream : Bool)
    (tools : Option (List (List (String × J)))) (tool_choice : Option J) :
    pyDictGet (anthropic_prepare_request model messages temperature max_tokens stream tools
        tool_choice none []) "system" =
      (if pyTruthy (convert_messages messages).1 = true then some (convert_messages messages).1
       else none) ∧
    keyCount (anthropic_prepare_request model messages temperature max_tokens stream tools
        tool_choice none []) "system" =
      (if pyTruthy (convert_messages messages).1 = true then 1 else 0) ∧
    pyDictGet (anthropic_prepare_request model messages temperature max_tokens stream tools
        tool_choice none []) "messages" = some (J.arr (convert_messages messages).2) := by
  unfold anthropic_prepare_request
  simp only [pyDictUpdate_nil]
  rcases temperature with _ | t <;> rcases tools with _ | ts <;> rcases tool_choice with _ | tc <;>
    first
    | (cases tc <;> dsimp only <;> split_ifs <;>
        simp [anthro_base_set_system, anthro_base_get_system, anthro_base5_get_system,
          anthro_base_count_system, anthro_base5_count_system, anthro_base_get_messages,
          anthro_base5_get_messages, pyDictGet_set_self, pyDictGet_set_ne, keyCount_set_ne])
    | (dsimp only <;> split_ifs <;>
        simp [anthro_base_set_system, anthro_base_get_system, anthro_base5_get_system,
          anthro_base_count_system, anthro_base5_count_system, anthro_base_get_messages,
          anthro_base5_get_messages, pyDictGet_set_self, pyDictGet_set_ne, keyCount_set_ne])

set_option maxHeartbeats 1000000 in
lemma bedrock_payload_system_fields (messages : List (List (String × J)))
    (temperature : Option J) (max_tokens : Option Int)
    (tools : Option (List (List (String × J)))) :
    pyDictGet (bedrock_prepare_request messages temperature max_tokens tools) "system" =
      (if pyTruthy (convert_messages messages).1 = true then some (convert_messages messages).1
       else none) ∧
    keyCount (bedrock_prepare_request messages temperature max_tokens tools) "system" =
      (if pyTruthy (convert_messages messages).1 = true then 1 else 0) ∧
    pyDictGet (bedrock_prepare_request messages temperature max_tokens tools) "messages" =
      some (J.arr (convert_messages messages).2) := by
  unfold bedrock_prepare_request
  rcases temperature with _ | t <;> rcases tools with _ | ts <;> dsimp only <;> split_ifs <;>
    simp_all [bed_base_set_system, bed_base_get_system, bed_base3_get_system,
      bed_base_count_system, bed_base3_count_system, bed_base_get_messages,
      bed_base3_get_messages, pyDictGet_set_self, pyDictGet_set_ne, keyCount_set_ne]

lemma anthro_base_get_tc (a b c d : J) :
    pyDictGet [("model", a), ("messages", b), ("max_tokens", c), ("stream", d)] "tool_choice" =
      none := rfl

lemma anthro_base5_get_tc (a b c d v : J) :
    pyDictGet [("model", a), ("messages", b), ("max_tokens", c), ("stream", d), ("system", v)]
      "tool_choice" = none := rfl

lemma bed_base_get_tc (a b : J) :
    pyDictGet [("messages", a), ("max_tokens", b)] "tool_choice" = none := rfl

lemma bed_base3_get_tc (a b v : J) :
    pyDictGet [("messages", a), ("max_tokens", b), ("system", v)] "tool_choice" = none := rfl

/-- C6 counterexample: a request whose only system-role message has empty
(falsy) content produces a payload with no system field at all, on both the
Anthropic and the Bedrock path, where the claim requires exactly one system
field holding that content. -/
theorem system_field_empty_content_cex :
    pyDictGet (anthropic_prepare_request "claude-3"
        [[("role", J.str "system"), ("content", J.str "")],
         [("role", J.str "user"), ("content", J.str "hi")]]
        none none false none none none []) "system" = none ∧
    pyDictGet (bedrock_prepare_request
        [[("role", J.str "system"), ("content", J.str "")],
         [("role", J.str "user"), ("content", J.str "hi")]]
        none none none) "system" = none :=
  ⟨rfl, rfl⟩

/-- C6 (amended): for requests without response_format and extra kwargs, a
message list with no system-role message produces a payload with no system
field; a message list with exactly one system-role message whose content is
truthy (non-empty) produces exactly one system field holding that content,
and the payload messages are the remaining messages in order with no
system-role entries.  The amendment restricts the one-system case to truthy
content: the code omits the field for falsy content. -/
theorem system_extraction_amended (model : String)
    (messages : List (List (String × J))) (temperature : Option J)
    (max_tokens : Option Int) (stream : Bool)
    (tools : Option (List (List (String × J)))) (tool_choice : Option J) :
    ((∀ msg ∈ messages, jEqStr ((pyDictGet msg "role").getD J.null) "system" = false) →
      pyDictGet (anthropic_prepare_request model messages temperature max_tokens stream tools
          tool_choice none []) "system" = none ∧
      pyDictGet (bedrock_prepare_request messages temperature max_tokens tools) "system" =
        none) ∧
    (∀ pre sysmsg post, messages = pre ++ sysmsg :: post →
      (∀ msg ∈ pre, jEqStr ((pyDictGet msg "role").getD J.null) "system" = false) →
      (∀ msg ∈ post, jEqStr ((pyDictGet msg "role").getD J.null) "system" = false) →
      jEqStr ((pyDictGet sysmsg "role").getD J.null) "system" = true →
      pyTruthy ((pyDictGet sysmsg "content").getD J.null) = true →
      (pyDictGet (anthropic_prepare_request model messages temperature max_tokens stream tools
          tool_choice none []) "system" = some ((pyDictGet sysmsg "content").getD J.null) ∧
       keyCount (anthropic_prepare_request model messages temperature max_tokens stream tools
          tool_choice none []) "system" = 1 ∧
       pyDictGet (anthropic_prepare_request model messages temperature max_tokens stream tools
          tool_choice none []) "messages" = some (J.arr ((pre ++ post).map toWireMsg)) ∧
       pyDictGet (bedrock_prepare_request messages temperature max_tokens tools) "system" =
         some ((pyDictGet sysmsg "content").getD J.null) ∧
       keyCount (bedrock_prepare_request messages temperature max_tokens tools) "system" = 1 ∧
       pyDictGet (bedrock_prepare_request messages temperature max_tokens tools) "messages" =
         some (J.arr ((pre ++ post).map toWireMsg)) ∧
       (∀ wm ∈ (pre ++ post).map toWireMsg,
         jEqStr ((pyDictGet (blockFields wm) "role").getD J.null) "system" = false))) := by
  constructor
  · intro h
    have hconv := convert_messages_no_system messages h
    have ha := anthropic_payload_system_fields model messages temperature max_tokens stream
      tools tool_choice
    have hb := bedrock_payload_system_fields messages temperature max_tokens tools
    rw [hconv] at ha hb
    simp only [pyTruthy] at ha hb
    exact ⟨by simpa using ha.1, by simpa using hb.1⟩
  · intro pre sysmsg post hm hpre hpost hsys htruthy
    subst hm
    have hconv := convert_messages_one_system pre post sysmsg hpre hpost hsys
    have ha := anthropic_payload_system_fields model (pre ++ sysmsg :: post) temperature
      max_tokens stream tools tool_choice
    have hb := bedrock_payload_system_fields (pre ++ sysmsg :: post) temperature max_tokens
      tools
    rw [hconv] at ha hb
    refine ⟨?_, ?_, ?_, ?_, ?_, ?_, ?_⟩
    · rw [ha.1]
      simp [htruthy]
    · rw [ha.2.1]
      simp [htruthy]
    · rw [ha.2.2]
    · rw [hb.1]
      simp [htruthy]
    · rw [hb.2.1]
      simp [htruthy]
    · rw [hb.2.2]
    · intro wm hwm
      rcases List.mem_map.mp hwm with ⟨msg, hmsg, rfl⟩
      have hrole : jEqStr ((pyDictGet msg "role").getD J.null) "system" = false := by
        rcases List.mem_append.mp hmsg with h1 | h2
        · exact hpre msg h1
        · exact hpost msg h2
      have hr : (pyDictGet (blockFields (toWireMsg msg)) "role").getD J.null =
          (pyDictGet msg "role").getD J.null := rfl
      rw [hr]
      exact hrole

/-- Witness for system_extraction_amended with one truthy system message and
one user message. -/
theorem system_extraction_amended_witness :
    pyDictGet (anthropic_prepare_request "claude-3"
        [[("role", J.str "system"), ("content", J.str "Be concise.")],
         [("role", J.str "user"), ("content", J.str "hi")]]
        none none false none none none []) "system" = some (J.str "Be concise.") ∧
    keyCount (anthropic_prepare_request "claude-3"
        [[("role", J.str "system"), ("content", J.str "Be concise.")],
         [("role", J.str "user"), ("content", J.str "hi")]]
        none none false none none none []) "system" = 1 ∧
    pyDictGet (anthropic_prepare_request "claude-3"
        [[("role", J.str "system"), ("content", J.str "Be concise.")],
         [("role", J.str "user"), ("content", J.str "hi")]]
        none none false none none none []) "messages" =
      some (J.arr ([[("role", J.str "user"), ("content", J.str "hi")]].map toWireMsg)) ∧
    pyDictGet (bedrock_prepare_request
        [[("role", J.str "system"), ("content", J.str "Be concise.")],
         [("role", J.str "user"), ("content", J.str "hi")]]
        none none none) "system" = some (J.str "Be concise.") ∧
    keyCount (bedrock_prepare_request
        [[("role", J.str "system"), ("content", J.str "Be concise.")],
         [("role", J.str "user"), ("content", J.str "hi")]]
        none none none) "system" = 1 ∧
    pyDictGet (bedrock_prepare_request
        [[("role", J.str "system"), ("content", J.str "Be concise.")],
         [("role", J.str "user"), ("content", J.str "hi")]]
        none none none) "messages" =
      some (J.arr ([[("role", J.str "user"), ("content", J.str "hi")]].map toWireMsg)) ∧
    (∀ wm ∈ [[("role", J.str "user"), ("content", J.str "hi")]].map toWireMsg,
      jEqStr ((pyDictGet (blockFields wm) "role").getD J.null) "system" = false) :=
  (system_extraction_amended "claude-3"
      [[("role", J.str "system"), ("content", J.str "Be concise.")],
       [("role", J.str "user"), ("content", J.str "hi")]]
      none none false none none).2
    [] [("role", J.str "system"), ("content", J.str "Be concise.")]
    [[("role", J.str "user"), ("content", J.str "hi")]]
    rfl (by intro msg h; cases h) (by decide) (by decide) (by decide)

/-- C9 counterexample: a Bedrock request carrying the string tool_choice
auto produces a wire payload with no tool_choice field at all, where the
claim requires a tool_choice of type auto. -/
theorem bedrock_tool_choice_dropped_cex :
    pyDictGet (bedrock_request_payload [[("role", J.str "user"), ("content", J.str "hi")]]
        none none none (some (J.str "auto")) none) "tool_choice" = none ∧
    (none : Option J) ≠ some (J.obj [("type", J.str "auto")]) :=
  ⟨rfl, fun h => Option.noConfusion h⟩

set_option maxHeartbeats 1000000 in
/-- C9 (amended): for every Anthropic request with no extra kwargs, a string
tool_choice of auto yields a payload tool_choice of type auto, and required
or any yield type any; the Bedrock payload has no tool_choice field for any
tool_choice value, because BedrockClient.completion never forwards it. -/
theorem tool_choice_mapping_amended (model : String)
    (messages : List (List (String × J))) (temperature : Option J)
    (max_tokens : Option Int) (stream : Bool)
    (tools : Option (List (List (String × J)))) (response_format : Option J)
    (tool_choice : Option J) :
    pyDictGet (anthropic_prepare_request model messages temperature max_tokens stream tools
        (some (J.str "auto")) response_format []) "tool_choice" =
      some (J.obj [("type", J.str "auto")]) ∧
    pyDictGet (anthropic_prepare_request model messages temperature max_tokens stream tools
        (some (J.str "required")) response_format []) "tool_choice" =
      some (J.obj [("type", J.str "any")]) ∧
    pyDictGet (anthropic_prepare_request model messages temperature max_tokens stream tools
        (some (J.str "any")) response_format []) "tool_choice" =
      some (J.obj [("type", J.str "any")]) ∧
    pyDictGet (bedrock_request_payload messages temperature max_tokens tools tool_choice
        response_format) "tool_choice" = none := by
  refine ⟨?_, ?_, ?_, ?_⟩ <;>
    [skip; skip; skip;
      (unfold bedrock_request_payload bedrock_prepare_request;
        rcases temperature with _ | t <;> rcases tools with _ | ts <;> dsimp only <;>
          split_ifs <;>
          simp_all [bed_base_set_system, bed_base_get_tc, bed_base3_get_tc,
            pyDictGet_set_ne])] <;>
    (unfold anthropic_prepare_request;
      simp only [pyDictUpdate_nil];
      rcases temperature with _ | t <;> rcases tools with _ | ts <;>
        rcases response_format with _ | rf <;> dsimp only <;> split_ifs <;>
        simp_all [anthro_base_set_system, anthro_base_get_tc, anthro_base5_get_tc,
          pyDictGet_set_self, pyDictGet_set_ne, pyTruthy])

/-! ## Parse-response invariants -/

lemma string_append_eq_empty (s t : String) : s ++ t = "" ↔ s = "" ∧ t = "" := by
  constructor
  · intro h
    have hd := congrArg String.data h
    rw [String.data_append] at hd
    rcases List.append_eq_nil.mp hd with ⟨hs, ht⟩
    exact ⟨String.ext hs, String.ext ht⟩
  · rintro ⟨rfl, rfl⟩
    rfl

lemma text_tool_block_disjoint (b : J) (h : isTextBlock b = true) :
    isToolUseBlock b = false := by
  unfold isTextBlock isToolUseBlock at *
  cases hx : pyDictGet (blockFields b) "type" with
  | none =>
    rw [hx] at h
    simp [optJEqStr] at h
  | some v =>
    rw [hx] at h
    cases v <;> simp_all [optJEqStr, jEqStr]

lemma extractBlocks_text_empty_iff (blocks : List J) (acc : String × List ToolCall) :
    (blocks.foldl
        (fun acc b =>
          if isTextBlock b then (acc.1 ++ blockText b, acc.2)
          else if isToolUseBlock b then (acc.1, acc.2 ++ [toolCallOfBlock b])
          else acc) acc).1 = "" ↔
      (acc.1 = "" ∧ ∀ b ∈ blocks, isTextBlock b = true → blockText b = "") := by
  induction blocks generalizing acc with
  | nil => simp
  | cons b bs ih =>
    rw [List.foldl_cons]
    by_cases hb : isTextBlock b = true
    · rw [if_pos hb, ih, string_append_eq_empty]
      constructor
      · rintro ⟨⟨h1, h2⟩, h3⟩
        refine ⟨h1, fun x hx hxt => ?_⟩
        rcases List.mem_cons.mp hx with rfl | hx2
        · exact h2
        · exact h3 x hx2 hxt
      · rintro ⟨h1, h2⟩
        exact ⟨⟨h1, h2 b (List.mem_cons_self b bs) hb⟩,
          fun x hx hxt => h2 x (List.mem_cons_of_mem b hx) hxt⟩
    · rw [if_neg hb]
      by_cases hu : isToolUseBlock b = true
      · rw [if_pos hu, ih]
        constructor
        · rintro ⟨h1, h3⟩
          refine ⟨h1, fun x hx hxt => ?_⟩
          rcases List.mem_cons.mp hx with rfl | hx2
          · exact absurd hxt hb
          · exact h3 x hx2 hxt
        · rintro ⟨h1, h2⟩
          exact ⟨h1, fun x hx hxt => h2 x (List.mem_cons_of_mem b hx) hxt⟩
      · rw [if_neg hu, ih]
        constructor
        · rintro ⟨h1, h3⟩
          refine ⟨h1, fun x hx hxt => ?_⟩
          rcases List.mem_cons.mp hx with rfl | hx2
          · exact absurd hxt hb
          · exact h3 x hx2 hxt
        · rintro ⟨h1, h2⟩
          exact ⟨h1, fun x hx hxt => h2 x (List.mem_cons_of_mem b hx) hxt⟩

lemma extractBlocks_tools_empty_iff (blocks : List J) (acc : String × List ToolCall) :
    (blocks.foldl
        (fun acc b =>
          if isTextBlock b then (acc.1 ++ blockText b, acc.2)
          else if isToolUseBlock b then (acc.1, acc.2 ++ [toolCallOfBlock b])
          else acc) acc).2 = [] ↔
      (acc.2 = [] ∧ ∀ b ∈ blocks, isToolUseBlock b = false) := by
  induction blocks generalizing acc with
  | nil => simp
  | cons b bs ih =>
    rw [List.foldl_cons]
    by_cases hb : isTextBlock b = true
    · rw [if_pos hb, ih]
      have hd := text_tool_block_disjoint b hb
      constructor
      · rintro ⟨h1, h2⟩
        refine ⟨h1, fun x hx => ?_⟩
        rcases List.mem_cons.mp hx with rfl | hx2
        · exact hd
        · exact h2 x hx2
      · rintro ⟨h1, h2⟩
        exact ⟨h1, fun x hx => h2 x (List.mem_cons_of_mem b hx)⟩
    · rw [if_neg hb]
      by_cases hu : isToolUseBlock b = true
      · rw [if_pos hu, ih]
        constructor
        · rintro ⟨h1, _⟩
          exact absurd h1 (by simp)
        · rintro ⟨_, h2⟩
          exact absurd (h2 b (List.mem_cons_self b bs)) (by simp [hu])
      · have hu2 : isToolUseBlock b = false := by
          cases hx : isToolUseBlock b
          · rfl
          · exact absurd hx hu
        rw [if_neg hu, ih]
        constructor
        · rintro ⟨h1, h2⟩
          refine ⟨h1, fun x hx => ?_⟩
          rcases List.mem_cons.mp hx with rfl | hx2
          · exact hu2
          · exact h2 x hx2
        · rintro ⟨h1, h2⟩
          exact ⟨h1, fun x hx => h2 x (List.mem_cons_of_mem b hx)⟩

lemma parse_message_invariants (blocks : List J) :
    ((if (extractBlocks blocks).1 != "" then J.str (extractBlocks blocks).1 else J.null) =
        J.null ↔
      ∀ b ∈ blocks, isTextBlock b = true → blockText b = "") ∧
    ((if !(extractBlocks blocks).2.isEmpty then some (extractBlocks blocks).2 else none) =
        none ↔
      ∀ b ∈ blocks, isToolUseBlock b = false) := by
  have ht : (extractBlocks blocks).1 = "" ↔
      ("" : String) = "" ∧ ∀ b ∈ blocks, isTextBlock b = true → blockText b = "" :=
    extractBlocks_text_empty_iff blocks ("", [])
  have hu : (extractBlocks blocks).2 = [] ↔
      ([] : List ToolCall) = [] ∧ ∀ b ∈ blocks, isToolUseBlock b = false :=
    extractBlocks_tools_empty_iff blocks ("", [])
  constructor
  · have hiff : ((if (extractBlocks blocks).1 != "" then J.str (extractBlocks blocks).1
        else J.null) = J.null) ↔ (extractBlocks blocks).1 = "" := by
      by_cases hx : (extractBlocks blocks).1 = ""
      · simp [hx]
      · simp [hx]
    rw [hiff, ht]
    simp
  · have hiff : ((if !(extractBlocks blocks).2.isEmpty then some (extractBlocks blocks).2
        else none) = none) ↔ (extractBlocks blocks).2 = [] := by
      cases hl : (extractBlocks blocks).2 <;> simp [hl]
    rw [hiff, hu]
    simp

/-- C10: every non-streaming response parsed by the Anthropic or Bedrock
adapter has exactly one Choice, with index 0 and a message whose role is
assistant; the message content is None exactly when the wire response had no
non-empty text block, and tool_calls is None exactly when it had no tool_use
block. -/
theorem single_choice_parse_invariants (data : List (String × J)) (model : String)
    (now : Int) :
    ((anthropic_parse_response data model now).choices.length = 1 ∧
      ∀ c ∈ (anthropic_parse_response data model now).choices,
        c.index = J.num 0 ∧ c.message.role = J.str "assistant" ∧
        (c.message.content = J.null ↔
          ∀ b ∈ contentBlocksOf data, isTextBlock b = true → blockText b = "") ∧
        (c.message.tool_calls = none ↔
          ∀ b ∈ contentBlocksOf data, isToolUseBlock b = false)) ∧
    ((bedrock_parse_bedrock_response data model now).choices.length = 1 ∧
      ∀ c ∈ (bedrock_parse_bedrock_response data model now).choices,
        c.index = J.num 0 ∧ c.message.role = J.str "assistant" ∧
        (c.message.content = J.null ↔
          ∀ b ∈ contentBlocksOf data, isTextBlock b = true → blockText b = "") ∧
        (c.message.tool_calls = none ↔
          ∀ b ∈ contentBlocksOf data, isToolUseBlock b = false)) := by
  have hinv := parse_message_invariants (contentBlocksOf data)
  constructor
  · refine ⟨rfl, ?_⟩
    intro c hc
    rw [List.mem_singleton.mp hc]
    exact ⟨rfl, rfl, hinv.1, hinv.2⟩
  · refine ⟨rfl, ?_⟩
    intro c hc
    rw [List.mem_singleton.mp hc]
    exact ⟨rfl, rfl, hinv.1, hinv.2⟩

/-! ## Stream skip and classification theorems -/

/-- C7 (amended): for the OpenAI/Groq and Anthropic stream loops, in sync
and async mode alike, a data line with malformed JSON yields no chunk and
the rest of the stream is processed exactly as if the line were absent.
The claim fails for Bedrock, whose stream aborts on a malformed event. -/
theorem stream_malformed_line_skipped (now : Int) (model s : String)
    (xs ys : List PyLine) :
    openai_stream_lines now (xs ++ PyLine.malformed s :: ys) =
      openai_stream_lines now (xs ++ ys) ∧
    openai_astream_lines now (xs ++ PyLine.malformed s :: ys) =
      openai_astream_lines now (xs ++ ys) ∧
    anthropic_stream_lines model now (xs ++ PyLine.malformed s :: ys) =
      anthropic_stream_lines model now (xs ++ ys) ∧
    anthropic_astream_lines model now (xs ++ PyLine.malformed s :: ys) =
      anthropic_astream_lines model now (xs ++ ys) := by
  induction xs with
  | nil =>
    refine ⟨rfl, rfl, ?_, ?_⟩ <;>
      simp [anthropic_stream_lines, anthropic_astream_lines]
  | cons l rest ih =>
    obtain ⟨ih1, ih2, ih3, ih4⟩ := ih
    cases l with
    | noData t =>
      exact ⟨by simpa [openai_stream_lines] using ih1,
        by simpa [openai_astream_lines] using ih2,
        by simpa [anthropic_stream_lines] using ih3,
        by simpa [anthropic_astream_lines] using ih4⟩
    | done =>
      exact ⟨rfl, rfl,
        by simpa [anthropic_stream_lines] using ih3,
        by simpa [anthropic_astream_lines] using ih4⟩
    | malformed t =>
      exact ⟨by simpa [openai_stream_lines] using ih1,
        by simpa [openai_astream_lines] using ih2,
        by simpa [anthropic_stream_lines] using ih3,
        by simpa [anthropic_astream_lines] using ih4⟩
    | event j =>
      refine ⟨by simpa [openai_stream_lines] using ih1,
        by simpa [openai_astream_lines] using ih2, ?_, ?_⟩
      · simp only [List.cons_append, anthropic_stream_lines]
        cases anthropic_parse_stream_chunk j model now <;> simp [ih3]
      · simp only [List.cons_append, anthropic_astream_lines]
        cases anthropic_parse_stream_chunk j model now <;> simp [ih4]

/-- C7 counterexample: a Bedrock stream with a well-formed message_start
event, then a malformed event, then a well-formed text delta delivers only
the first chunk and aborts with an API-kind error; the later well-formed
event is never translated, where the claim requires the stream to continue. -/
theorem bedrock_stream_malformed_aborts :
    bedrock_stream_run "claude-3" 0
        [BedrockEvent.event [("type", J.str "message_start"),
            ("message", J.obj [("id", J.str "msg-1")])],
         BedrockEvent.malformed "Expecting value: line 1 column 1 (char 0)",
         BedrockEvent.event [("type", J.str "content_block_delta"),
            ("delta", J.obj [("type", J.str "text_delta"), ("text", J.str "hello")])]] =
      ([{ id := J.str "msg-1", object := "chat.completion.chunk", created := 0,
          model := J.str "claude-3",
          choices := [{ index := J.num 0, delta := {}, finish_reason := J.null }] }],
       some (APIError "Expecting value: line 1 column 1 (char 0)" 500 (some "claude-3")
          (some "bedrock"))) := by
  rfl

/-- C8 counterexample: a Bedrock streaming failure whose message carries
ThrottlingException is classified as the generic API kind, not RateLimit as
the claim requires for streaming and non-streaming alike (the non-streaming
path does classify it as RateLimit). -/
theorem bedrock_stream_throttling_misclassified :
    (bedrock_classify_stream_error "ThrottlingException: Rate exceeded" "claude-3").kind =
      ErrorKind.api ∧
    (bedrock_classify_error "ThrottlingException: Rate exceeded" "claude-3").kind =
      ErrorKind.rateLimit ∧
    ErrorKind.api ≠ ErrorKind.rateLimit := by
  refine ⟨rfl, rfl, by decide⟩

/-- C8 (amended): non-streaming Bedrock failures are classified by substring
matching with the full table (AuthenticationException or
UnrecognizedClientException to Authentication, then ValidationException to
BadRequest, then ThrottlingException to RateLimit, anything unmatched to the
generic API kind, so no raw message ever escapes unclassified); the
streaming path matches only AuthenticationException and classifies every
other message as API. -/
theorem bedrock_error_classification_amended (msg model : String) :
    ((containsSubstr "AuthenticationException" msg ||
        containsSubstr "UnrecognizedClientException" msg) = true →
      (bedrock_classify_error msg model).kind = ErrorKind.authentication) ∧
    ((containsSubstr "AuthenticationException" msg ||
        containsSubstr "UnrecognizedClientException" msg) = false →
      containsSubstr "ValidationException" msg = true →
      (bedrock_classify_error msg model).kind = ErrorKind.badRequest) ∧
    ((containsSubstr "AuthenticationException" msg ||
        containsSubstr "UnrecognizedClientException" msg) = false →
      containsSubstr "ValidationException" msg = false →
      containsSubstr "ThrottlingException" msg = true →
      (bedrock_classify_error msg model).kind = ErrorKind.rateLimit) ∧
    ((containsSubstr "AuthenticationException" msg ||
        containsSubstr "UnrecognizedClientException" msg) = false →
      containsSubstr "ValidationException" msg = false →
      containsSubstr "ThrottlingException" msg = false →
      (bedrock_classify_error msg model).kind = ErrorKind.api) ∧
    (bedrock_classify_error msg model).kind ∈
      [ErrorKind.authentication, ErrorKind.badRequest, ErrorKind.rateLimit, ErrorKind.api] ∧
    (containsSubstr "AuthenticationException" msg = true →
      (bedrock_classify_stream_error msg model).kind = ErrorKind.authentication) ∧
    (containsSubstr "AuthenticationException" msg = false →
      (bedrock_classify_stream_error msg model).kind = ErrorKind.api) := by
  refine ⟨?_, ?_, ?_, ?_, ?_, ?_, ?_⟩
  · intro h1
    simp [bedrock_classify_error, h1, AuthenticationError]
  · intro h1 h2
    simp [bedrock_classify_error, h1, h2, BadRequestError]
  · intro h1 h2 h3
    simp [bedrock_classify_error, h1, h2, h3, RateLimitError]
  · intro h1 h2 h3
    simp [bedrock_classify_error, h1, h2, h3, APIError]
  · unfold bedrock_classify_error
    split_ifs <;>
      simp [AuthenticationError, BadRequestError, RateLimitError, APIError]
  · intro h1
    simp [bedrock_classify_stream_error, h1, AuthenticationError]
  · intro h1
    simp [bedrock_classify_stream_error, h1, APIError]

/-- Witness for bedrock_error_classification_amended on a ValidationException
message. -/
theorem bedrock_error_classification_amended_witness :
    (bedrock_classify_error "ValidationException: bad payload" "claude-3").kind =
      ErrorKind.badRequest :=
  (bedrock_error_classification_amended "ValidationException: bad payload" "claude-3").2.1
    (by decide) (by decide)

/-! ## Sync/async behavioral equivalence -/

/-- C2: for identical inputs and identical wire-level behaviour, the async
entry point and every async adapter path produce exactly the result of the
corresponding sync path: the same response on success and the same
classified error on failure, for non-streaming calls and for the stream
translation loops alike. -/
theorem sync_async_behavioral_equiv :
    (∀ (R : Type) (model : String) (numRetries : Nat) (stream : Bool)
        (call : ClientClass → Nat → Except UllmError R),
      completion model numRetries stream call = acompletion model numRetries stream call) ∧
    (∀ model reply now,
      openai_completion_run model reply now = openai_acompletion_run model reply now) ∧
    (∀ model reply now,
      anthropic_completion_run model reply now = anthropic_acompletion_run model reply now) ∧
    (∀ model wire now,
      bedrock_completion_run model wire now = bedrock_acompletion_run model wire now) ∧
    (∀ now lines, openai_stream_lines now lines = openai_astream_lines now lines) ∧
    (∀ model now lines,
      anthropic_stream_lines model now lines = anthropic_astream_lines model now lines) := by
  refine ⟨fun R model n s call => rfl, fun m r n => rfl, fun m r n => rfl,
    fun m w n => rfl, ?_, ?_⟩
  · intro now lines
    induction lines with
    | nil => rfl
    | cons l rest ih =>
      cases l <;> simp [openai_stream_lines, openai_astream_lines, ih]
  · intro model now lines
    induction lines with
    | nil => rfl
    | cons l rest ih =>
      cases l with
      | noData s => simpa [anthropic_stream_lines, anthropic_astream_lines] using ih
      | done => simpa [anthropic_stream_lines, anthropic_astream_lines] using ih
      | malformed s => simpa [anthropic_stream_lines, anthropic_astream_lines] using ih
      | event j =>
        simp only [anthropic_stream_lines, anthropic_astream_lines]
        cases anthropic_parse_stream_chunk j model now <;> simp [ih]

end Ullm
